import Mathlib

/-!
Verification of the ECG-Lab waveform synthesis engine.

The TypeScript sources are shallowly embedded over `ℚ`:
JavaScript numbers become rationals, the `%`, `Math.floor`, `Math.ceil`,
`Math.round` and `||` operators become the `js*` helpers below, optional
record fields become `Option`, and `Math.sin (x * Math.PI)` is abstracted
as a parameter `sinpi : ℚ → ℚ` (no verified claim depends on the values
of the sine function).  The `Math.random` stream of the JavaScript
environment is modelled as an explicit parameter `ℕ → ℚ` of the top-level
synthesis function; the engine in `src/core/types.ts` never invokes it.
-/

/-- Truncation toward zero, the rounding used by the JavaScript `%` operator. -/
def jsTrunc (q : ℚ) : ℤ :=
  if 0 ≤ q then ⌊q⌋ else ⌈q⌉

/-- JavaScript remainder `a % n` on (rational) numbers: the sign follows the
dividend.  (For `n = 0` JavaScript yields `NaN`; here the convention `a / 0 = 0`
makes `jsModQ a 0 = a`.) -/
def jsModQ (a n : ℚ) : ℚ :=
  a - n * (jsTrunc (a / n) : ℚ)

/-- JavaScript remainder on integers: truncated division, sign of the dividend. -/
def jsRemInt (a n : ℤ) : ℤ :=
  Int.tmod a n

/-- JavaScript `Math.round`: round half toward positive infinity. -/
def jsRound (q : ℚ) : ℤ :=
  ⌊q + 1/2⌋

/-- JavaScript `x || d` on numbers: `d` when `x` is absent (`undefined`) or `0`. -/
def jsOr (x : Option ℚ) (d : ℚ) : ℚ :=
  match x with
  | none => d
  | some v => if v = 0 then d else v

/-- QRS morphology selector (`qrsMorphology` field of `PathologyModifiers`). -/
inductive QrsMorphology where
  | normal
  | lbbb
  | rbbb
  | pathologicalQ
deriving DecidableEq

/-- Intermittency pattern selector (`abnormalityPattern` field). -/
inductive AbnormalityPattern where
  | random
  | periodic
  | clustered
deriving DecidableEq

/-- The closed enumeration of pathology identifiers (`PathologyType` in
`src/core/types.ts`). -/
inductive PathologyType where
  | normal
  | sinusTachycardia
  | sinusBradycardia
  | sinusArrhythmia
  | atrialFibrillation
  | atrialFlutter
  | atrialPrematureBeat
  | ventricularTachycardia
  | ventricularFibrillation
  | ventricularPrematureBeat
  | firstDegreeAvBlock
  | secondDegreeAvBlockType1
  | secondDegreeAvBlockType2
  | thirdDegreeAvBlock
  | leftBundleBranchBlock
  | rightBundleBranchBlock
  | wolffParkinsonWhite
  | leftVentricularHypertrophy
  | rightVentricularHypertrophy
  | stElevationMi
  | stDepressionIschemia
  | pathologicalQWaves
  | longQtSyndrome
  | hyperkalaemia
  | rightAtrialHypertrophy
  | leftAtrialHypertrophy
deriving DecidableEq

/-- The `PathologyModifiers` record of `src/core/types.ts`: every field is
independently optional (JavaScript `undefined` is `none`). -/
structure PathologyModifiers where
  pWaveAmplitude : Option ℚ := none
  pWavePresent : Option Bool := none
  pWaveWidth : Option ℚ := none
  prInterval : Option ℚ := none
  prIntervalVariation : Option ℚ := none
  qrsWidth : Option ℚ := none
  qrsAmplitude : Option ℚ := none
  qrsMorphology : Option QrsMorphology := none
  stSegmentPresent : Option Bool := none
  stSegmentElevation : Option ℚ := none
  stSegmentDuration : Option ℚ := none
  tWaveAmplitude : Option ℚ := none
  tWaveWidth : Option ℚ := none
  tWaveTented : Option Bool := none
  tWaveInverted : Option Bool := none
  qtInterval : Option ℚ := none
  baselineNoise : Option ℚ := none
  irregularity : Option ℚ := none
  droppedBeats : Option ℚ := none
  avDissociation : Option Bool := none
  deltaWave : Option Bool := none
  ventricularRate : Option ℚ := none
  abnormalityFrequency : Option ℚ := none
  abnormalityPattern : Option AbnormalityPattern := none
  abnormalityCycleLength : Option ℚ := none
deriving DecidableEq

/-- The `ECGConfig` record of `src/core/types.ts`. -/
structure ECGConfig where
  pathology : PathologyType
  heartRate : Option ℚ := none
  amplitude : Option ℚ := none
  noise : Option ℚ := none
  sampleRate : Option ℚ := none
deriving DecidableEq

/-- The 26-way `switch` in the body of `getPathologyModifiers`
(`src/core/pathologies.ts`, full version): the uncached resolution of a
pathology identifier to its modifier record. -/
def computePathologyModifiers (pathology : PathologyType) : PathologyModifiers :=
  match pathology with
  | .normal => {}
  | .sinusTachycardia => {}
  | .sinusBradycardia => {}
  | .sinusArrhythmia => { irregularity := some 0.15 }
  | .atrialFibrillation =>
      { pWavePresent := some false, baselineNoise := some 0.15, irregularity := some 0.8 }
  | .atrialFlutter =>
      { pWavePresent := some false, baselineNoise := some 0.05 }
  | .atrialPrematureBeat =>
      { pWaveAmplitude := some 0.7, pWaveWidth := some 0.8, irregularity := some 0.3,
        abnormalityFrequency := some 0.15, abnormalityPattern := some .random }
  | .ventricularTachycardia =>
      { pWavePresent := some false, qrsWidth := some 1.8, qrsAmplitude := some 1.2,
        stSegmentPresent := some false, tWaveAmplitude := some 0.3 }
  | .ventricularFibrillation =>
      { pWavePresent := some false, qrsWidth := some 0, stSegmentPresent := some false,
        baselineNoise := some 0.5, irregularity := some 1 }
  | .ventricularPrematureBeat =>
      { pWavePresent := some false, qrsWidth := some 1.5, qrsAmplitude := some 1.3,
        stSegmentPresent := some true, tWaveInverted := some true,
        abnormalityFrequency := some 0.12, abnormalityPattern := some .random }
  | .firstDegreeAvBlock => { prInterval := some 1.5 }
  | .secondDegreeAvBlockType1 =>
      { prInterval := some 1.2, prIntervalVariation := some 0.3, droppedBeats := some 0.25 }
  | .secondDegreeAvBlockType2 =>
      { prInterval := some 1, droppedBeats := some 0.33 }
  | .thirdDegreeAvBlock =>
      { avDissociation := some true, ventricularRate := some 40 }
  | .leftBundleBranchBlock =>
      { qrsWidth := some 1.5, qrsMorphology := some .lbbb, stSegmentPresent := some true,
        tWaveInverted := some true, abnormalityFrequency := some 0.95,
        abnormalityPattern := some .random }
  | .rightBundleBranchBlock =>
      { qrsWidth := some 1.5, qrsMorphology := some .rbbb, stSegmentPresent := some true,
        tWaveInverted := some true, abnormalityFrequency := some 0.95,
        abnormalityPattern := some .random }
  | .wolffParkinsonWhite =>
      { prInterval := some 0.7, deltaWave := some true, qrsWidth := some 1.2,
        abnormalityFrequency := some 0.22, abnormalityPattern := some .random }
  | .leftVentricularHypertrophy =>
      { qrsWidth := some 1.1, qrsAmplitude := some 1.5,
        stSegmentElevation := some (-0.15), tWaveInverted := some true }
  | .rightVentricularHypertrophy =>
      { qrsWidth := some 1.1, qrsAmplitude := some 1.2,
        stSegmentElevation := some (-0.1), tWaveInverted := some true }
  | .stElevationMi =>
      { stSegmentElevation := some 0.25, stSegmentDuration := some 1.2,
        tWaveInverted := some true, qrsMorphology := some .pathologicalQ,
        abnormalityFrequency := some 0.85, abnormalityPattern := some .random }
  | .stDepressionIschemia =>
      { stSegmentElevation := some (-0.15), stSegmentDuration := some 1.1,
        tWaveInverted := some true, abnormalityFrequency := some 0.75,
        abnormalityPattern := some .random }
  | .pathologicalQWaves =>
      { qrsMorphology := some .pathologicalQ, qrsWidth := some 1.2,
        stSegmentElevation := some (-0.1), tWaveInverted := some true,
        abnormalityFrequency := some 0.9, abnormalityPattern := some .random }
  | .longQtSyndrome =>
      { qtInterval := some 1.4, tWaveAmplitude := some 1.2, tWaveWidth := some 1.3 }
  | .hyperkalaemia =>
      { pWaveAmplitude := some 0.3, pWavePresent := some true, qrsWidth := some 1.5,
        stSegmentPresent := some false, tWaveAmplitude := some 1.8,
        tWaveWidth := some 1.2, tWaveTented := some true }
  | .rightAtrialHypertrophy =>
      { pWaveAmplitude := some 1.5, pWaveWidth := some 1, pWavePresent := some true }
  | .leftAtrialHypertrophy =>
      { pWaveAmplitude := some 1, pWaveWidth := some 1.4, pWavePresent := some true }

/-- The module-level memoization cache (`pathologyModifiersCache`), made
explicit: `none` marks an identifier not yet resolved. -/
def ModifiersCache : Type :=
  PathologyType → Option PathologyModifiers

/-- Insertion of a freshly computed entry into the cache
(`pathologyModifiersCache.set`). -/
def cacheInsert (cache : ModifiersCache) (p : PathologyType)
    (m : PathologyModifiers) : ModifiersCache :=
  fun q => if q = p then some m else cache q

/-- A cache is sound when every entry it holds is the uncached resolution of
its key; the module cache starts empty and is only ever filled by
`getPathologyModifiers`, so every reachable cache state is sound. -/
def soundCache (cache : ModifiersCache) : Prop :=
  ∀ p m, cache p = some m → m = computePathologyModifiers p

/-- The memoized resolver `getPathologyModifiers` of `src/core/pathologies.ts`,
with the module cache threaded explicitly: return the cached record if present,
otherwise compute, cache and return it. -/
def getPathologyModifiers (pathology : PathologyType) (cache : ModifiersCache) :
    PathologyModifiers × ModifiersCache :=
  match cache pathology with
  | some m => (m, cache)
  | none =>
      let m := computePathologyModifiers pathology
      (m, cacheInsert cache pathology m)

/-- P-wave generator `generatePWave` of `src/core/types.ts`: half-sine bump on
`[0, 0.14)` of peak `0.15 * pWaveAmplitude`, suppressed when `pWavePresent` is
false or the amplitude is exactly `0`.  `sinpi t` models
`Math.sin (t * Math.PI)`. -/
def generatePWave (sinpi : ℚ → ℚ) (phase : ℚ) (modifiers : PathologyModifiers) : ℚ :=
  let pWaveAmplitude := modifiers.pWaveAmplitude.getD 1
  let pWavePresent := modifiers.pWavePresent.getD true
  if pWavePresent = false ∨ pWaveAmplitude = 0 then 0
  else
    let pStart : ℚ := 0
    let pEnd : ℚ := 0.14
    if pStart ≤ phase ∧ phase < pEnd then
      sinpi ((phase - pStart) / (pEnd - pStart)) * 0.15 * pWaveAmplitude
    else 0

/-- PR-segment generator `generatePRSegment` of `src/core/types.ts`: zero
except for the WPW delta wave, a `0.05`-peak half-sine across the PR window;
with `prIntervalVariation > 0` the effective PR interval lengthens across a
4-beat Wenckebach cycle. -/
def generatePRSegment (sinpi : ℚ → ℚ) (phase : ℚ) (modifiers : PathologyModifiers)
    (beatNumber : ℤ) : ℚ :=
  let prInterval := modifiers.prInterval.getD 1
  let prIntervalVariation := modifiers.prIntervalVariation.getD 0
  let deltaWave := modifiers.deltaWave.getD false
  let prStart : ℚ := 0.14
  let currentPRInterval :=
    if prIntervalVariation > 0 ∧ beatNumber > 0 then
      let cycleLength : ℤ := 4
      let cyclePosition := jsRemInt beatNumber cycleLength
      if cyclePosition < cycleLength - 1 then
        prInterval + prIntervalVariation * (cyclePosition : ℚ) / ((cycleLength : ℚ) - 1)
      else prInterval
    else prInterval
  let prEnd := prStart + 0.06 * currentPRInterval
  if deltaWave = true ∧ prStart ≤ phase ∧ phase < prEnd then
    sinpi ((phase - prStart) / (prEnd - prStart)) * 0.05
  else 0

/-- QRS generator `generateQRSComplex` of `src/core/types.ts`: piecewise-linear
morphology on the window `[0.20, 0.20 + 0.08 * qrsWidth)`, every segment value
multiplied by `qrsAmplitude` and by the deterministic per-beat amplitude jitter
`1 + ((beatNumber * 9301 + 49297) % 200 - 100) / 100 * 0.03`. -/
def generateQRSComplex (phase : ℚ) (modifiers : PathologyModifiers)
    (beatNumber : ℤ) : ℚ :=
  let qrsWidth := modifiers.qrsWidth.getD 1
  let qrsAmplitude := modifiers.qrsAmplitude.getD 1
  let qrsMorphology := modifiers.qrsMorphology.getD .normal
  let qrsStart : ℚ := 0.20
  let qrsDuration := 0.08 * qrsWidth
  let qrsEnd := qrsStart + qrsDuration
  if qrsStart ≤ phase ∧ phase < qrsEnd then
    let qrsPhase := (phase - qrsStart) / qrsDuration
    let amplitudeVariation : ℚ :=
      1 + ((jsRemInt (beatNumber * 9301 + 49297) 200 : ℚ) - 100) / 100 * 0.03
    match qrsMorphology with
    | .lbbb =>
        if qrsPhase < 0.15 then
          -0.05 * (qrsPhase / 0.15) * qrsAmplitude * amplitudeVariation
        else if qrsPhase < 0.40 then
          ((qrsPhase - 0.15) / 0.25 * 1) * qrsAmplitude * amplitudeVariation
        else if qrsPhase < 0.55 then
          (1 - (qrsPhase - 0.40) / 0.15 * 1.2) * qrsAmplitude * amplitudeVariation
        else if qrsPhase < 0.80 then
          (-0.2 + (qrsPhase - 0.55) / 0.25 * 0.8) * qrsAmplitude * amplitudeVariation
        else
          (-0.2 * (1 - (qrsPhase - 0.80) / 0.20)) * qrsAmplitude * amplitudeVariation
    | .rbbb =>
        if qrsPhase < 0.20 then
          (qrsPhase / 0.20 * 0.8) * qrsAmplitude * amplitudeVariation
        else if qrsPhase < 0.45 then
          (0.8 - (qrsPhase - 0.20) / 0.25 * 1) * qrsAmplitude * amplitudeVariation
        else if qrsPhase < 0.70 then
          (-0.2 + (qrsPhase - 0.45) / 0.25 * 0.6) * qrsAmplitude * amplitudeVariation
        else
          (0.4 * (1 - (qrsPhase - 0.70) / 0.30)) * qrsAmplitude * amplitudeVariation
    | .pathologicalQ =>
        if qrsPhase < 0.25 then
          -0.25 * (qrsPhase / 0.25) * qrsAmplitude * amplitudeVariation
        else if qrsPhase < 0.50 then
          (-0.25 + (qrsPhase - 0.25) / 0.25 * 1.1) * qrsAmplitude * amplitudeVariation
        else if qrsPhase < 0.75 then
          (0.85 - (qrsPhase - 0.50) / 0.25 * 0.95) * qrsAmplitude * amplitudeVariation
        else
          (-0.10 * (1 - (qrsPhase - 0.75) / 0.25)) * qrsAmplitude * amplitudeVariation
    | .normal =>
        if qrsPhase < 0.12 then
          -0.10 * (qrsPhase / 0.12) * qrsAmplitude * amplitudeVariation
        else if qrsPhase < 0.50 then
          let rPhase := (qrsPhase - 0.12) / 0.38
          if rPhase < 0.5 then
            (-0.10 + 1.10 * (rPhase * 2)) * qrsAmplitude * amplitudeVariation
          else
            (1 - 1 * ((rPhase - 0.5) * 2)) * qrsAmplitude * amplitudeVariation
        else if qrsPhase < 0.75 then
          (0 - (0 - (-0.10)) * ((qrsPhase - 0.50) / 0.25)) * qrsAmplitude * amplitudeVariation
        else
          (-0.10 * (1 - (qrsPhase - 0.75) / 0.25)) * qrsAmplitude * amplitudeVariation
  else 0

/-- ST-segment generator `generateSTSegment` of `src/core/types.ts`: the
constant `stSegmentElevation` across the ST window immediately after the QRS
window. -/
def generateSTSegment (phase : ℚ) (modifiers : PathologyModifiers) : ℚ :=
  let stSegmentPresent := modifiers.stSegmentPresent.getD true
  let stSegmentDuration := modifiers.stSegmentDuration.getD 1
  let qrsWidth := modifiers.qrsWidth.getD 1
  let stSegmentElevation := modifiers.stSegmentElevation.getD 0
  if stSegmentPresent = false then 0
  else
    let stStart := 0.20 + 0.08 * qrsWidth
    let stEnd := stStart + 0.12 * stSegmentDuration
    if stStart ≤ phase ∧ phase < stEnd then stSegmentElevation else 0

/-- T-wave generator `generateTWave` of `src/core/types.ts`: half-sine over the
window after the ST segment, peak `0.4` when tented else `0.25`, scaled by
`tWaveAmplitude` and negated when inverted. -/
def generateTWave (sinpi : ℚ → ℚ) (phase : ℚ) (modifiers : PathologyModifiers) : ℚ :=
  let tWaveAmplitude := modifiers.tWaveAmplitude.getD 1
  let tWaveWidth := modifiers.tWaveWidth.getD 1
  let tWaveTented := modifiers.tWaveTented.getD false
  let tWaveInverted := modifiers.tWaveInverted.getD false
  let qrsWidth := modifiers.qrsWidth.getD 1
  let stSegmentDuration := modifiers.stSegmentDuration.getD 1
  let tStart := 0.20 + 0.08 * qrsWidth + 0.12 * stSegmentDuration
  let tEnd := tStart + 0.20 * tWaveWidth
  if tStart ≤ phase ∧ phase < tEnd then
    let baseAmplitude : ℚ := if tWaveTented = true then 0.4 else 0.25
    let tValue := sinpi ((phase - tStart) / (tEnd - tStart)) * baseAmplitude * tWaveAmplitude
    if tWaveInverted = true then -tValue else tValue
  else 0

/-- Intermittency decision `shouldShowAbnormality` of `src/core/types.ts`:
frequency unset or at least `1` means always, at most `0` means never;
otherwise the periodic / clustered / random pattern decides.  The cycle length
defaults to `4` via JavaScript `||` (so an explicit `0` also falls back). -/
def shouldShowAbnormality (beatNumber : ℤ) (modifiers : PathologyModifiers) : Bool :=
  match modifiers.abnormalityFrequency with
  | none => true
  | some frequency =>
    if 1 ≤ frequency then true
    else if frequency ≤ 0 then false
    else
      let pattern := modifiers.abnormalityPattern.getD .random
      let cycleLength := jsOr modifiers.abnormalityCycleLength 4
      match pattern with
      | .periodic =>
          decide (jsModQ (beatNumber : ℚ) cycleLength = cycleLength - 1)
      | .clustered =>
          let clusterSize : ℤ := ⌈cycleLength / 2⌉
          let clusterStart : ℚ := (⌊(beatNumber : ℚ) / cycleLength⌋ : ℚ) * cycleLength
          decide ((beatNumber : ℚ) - clusterStart < (clusterSize : ℚ))
      | .random =>
          decide ((jsRemInt (beatNumber * 9301 + 49297) 233280 : ℚ) / 233280 < frequency)

/-- Beat-seeded ST jitter used for the ST-change pathologies when the
abnormality is hidden (seed `beatNumber * 7301 + 29347`, span `0.2`). -/
def stVariationLarge (beatNumber : ℤ) : ℚ :=
  ((jsRemInt (beatNumber * 7301 + 29347) 233280 : ℚ) / 233280 - 0.5) * 0.2

/-- Beat-seeded ST jitter used for other pathologies with a nonzero ST
elevation when the abnormality is hidden (seed `beatNumber * 5301 + 19347`,
span `0.05`). -/
def stVariationSmall (beatNumber : ℤ) : ℚ :=
  ((jsRemInt (beatNumber * 5301 + 19347) 233280 : ℚ) / 233280 - 0.5) * 0.05

/-- The effective-modifier derivation of `generateECGComplex`
(`src/core/types.ts`, the `if (!showAbnormality && pathology !== 'normal')`
chain): pathology-specific overrides applied on beats where the abnormality is
hidden. -/
def effectiveModifiersFor (pathology : PathologyType) (modifiers : PathologyModifiers)
    (showAbnormality : Bool) (currentBeatNumber : ℤ) : PathologyModifiers :=
  if showAbnormality = false ∧ pathology ≠ PathologyType.normal then
    if pathology = PathologyType.wolffParkinsonWhite then
      { modifiers with
        prInterval := some 1
        deltaWave := some false
        qrsWidth := some 1
        qrsMorphology := some .normal }
    else if pathology = PathologyType.atrialPrematureBeat ∨
        pathology = PathologyType.ventricularPrematureBeat then
      modifiers
    else if pathology = PathologyType.stElevationMi ∨
        pathology = PathologyType.stDepressionIschemia then
      let baseSTChange := jsOr modifiers.stSegmentElevation 0
      { modifiers with
        stSegmentElevation := some (baseSTChange * (0.3 + stVariationLarge currentBeatNumber)) }
    else if modifiers.stSegmentElevation ≠ none ∧ modifiers.stSegmentElevation ≠ some 0 then
      let baseSTChange := jsOr modifiers.stSegmentElevation 0
      { modifiers with
        stSegmentElevation := some (baseSTChange * (1 + stVariationSmall currentBeatNumber)) }
    else if pathology = PathologyType.pathologicalQWaves then
      { modifiers with qrsMorphology := some .normal }
    else if pathology = PathologyType.leftBundleBranchBlock ∨
        pathology = PathologyType.rightBundleBranchBlock then
      { modifiers with
        qrsWidth := some 1
        qrsMorphology := some .normal
        tWaveInverted := some false }
    else modifiers
  else modifiers

/-- Dropped-beat predicate of `generateECGComplex`: `droppedBeats` present and
positive, `cycleLength = round (1 / droppedBeats)` greater than `1`, and the
beat ordinal hits the last position of the cycle. -/
def isDroppedBeat (modifiers : PathologyModifiers) (currentBeatNumber : ℤ) : Bool :=
  match modifiers.droppedBeats with
  | none => false
  | some droppedBeats =>
      if droppedBeats > 0 then
        let cycleLength := jsRound (1 / droppedBeats)
        decide (cycleLength > 1 ∧ jsRemInt currentBeatNumber cycleLength = cycleLength - 1)
      else false

/-- The phase-seeded pseudo-random value used for baseline noise and for the
ventricular-fibrillation override: seed `p * 1000 + floor (p * 10000)`, hash
family `9301 / 49297 / 233280`. -/
def phasePseudoRandom (p : ℚ) : ℚ :=
  jsModQ ((p * 1000 + (⌊p * 10000⌋ : ℚ)) * 9301 + 49297) 233280 / 233280

/-- The additive baseline-noise term of `generateECGComplex`: zero unless the
total noise is positive, else `(pseudoRandom (normalizedPhase) - 0.5)` scaled
by the total noise.  It is a function of the normalized phase and the total
noise only — no beat index enters. -/
def noiseContribution (normalizedPhase totalNoise : ℚ) : ℚ :=
  if totalNoise > 0 then (phasePseudoRandom normalizedPhase - 0.5) * totalNoise else 0

/-- The atrial-flutter replacement value for the pre-QRS portion: a 3-cycle
triangle ranging over `[-0.2, 0]` (peak-to-peak `0.2`). -/
def flutterWaveValue (adjustedPhase : ℚ) : ℚ :=
  let flutterCycles : ℚ := 3
  let flutterPhase := jsModQ adjustedPhase (0.20 / flutterCycles) / (0.20 / flutterCycles)
  (if flutterPhase < 0.5 then flutterPhase * 0.4 else (1 - flutterPhase) * 0.4) - 0.2

/-- The synthesis entry point `generateECGComplex` of `src/core/types.ts`.
`sinpi` models the sine table; `_rand` models the `Math.random` stream of the
JavaScript environment, which this implementation never invokes; `beatNumber`
is the optional third argument (`none` is an omitted argument, defaulted to
`Math.floor phase`). -/
def generateECGComplex (sinpi : ℚ → ℚ) (_rand : ℕ → ℚ) (phase : ℚ)
    (config : ECGConfig) (beatNumber : Option ℤ) : ℚ :=
  let pathology := config.pathology
  let amplitude := config.amplitude.getD 1
  let noise := config.noise.getD 0.02
  let heartRate := config.heartRate.getD 72
  let normalizedPhase := jsModQ phase 1
  let modifiers := computePathologyModifiers pathology
  let currentBeatNumber := beatNumber.getD ⌊phase⌋
  let showAbnormality := shouldShowAbnormality currentBeatNumber modifiers
  let effectiveModifiers :=
    effectiveModifiersFor pathology modifiers showAbnormality currentBeatNumber
  if isDroppedBeat effectiveModifiers currentBeatNumber then
    (generatePWave sinpi normalizedPhase effectiveModifiers
      + generatePRSegment sinpi normalizedPhase effectiveModifiers currentBeatNumber
      + noiseContribution normalizedPhase (noise + jsOr effectiveModifiers.baselineNoise 0))
      * amplitude
  else if effectiveModifiers.avDissociation.getD false = true then
    let atrialPhase := jsModQ (phase * heartRate / 60) 1
    let ventricularRate := jsOr effectiveModifiers.ventricularRate (heartRate * 0.4)
    let ventricularPhase := jsModQ (phase * ventricularRate / 60) 1
    (generatePWave sinpi atrialPhase effectiveModifiers
      + generatePRSegment sinpi ventricularPhase effectiveModifiers currentBeatNumber
      + generateQRSComplex ventricularPhase effectiveModifiers currentBeatNumber
      + generateSTSegment ventricularPhase effectiveModifiers
      + generateTWave sinpi ventricularPhase effectiveModifiers
      + noiseContribution normalizedPhase (noise + jsOr effectiveModifiers.baselineNoise 0))
      * amplitude
  else
    let adjustedPhase :=
      if pathology = PathologyType.atrialPrematureBeat ∧ showAbnormality = true then
        normalizedPhase * 0.7
      else if pathology = PathologyType.ventricularPrematureBeat ∧ showAbnormality = true then
        normalizedPhase * 0.6
      else normalizedPhase
    let pVal :=
      if pathology = PathologyType.ventricularPrematureBeat ∧ showAbnormality = true then 0
      else generatePWave sinpi adjustedPhase effectiveModifiers
    let qtMultiplier := jsOr effectiveModifiers.qtInterval 1
    let tVal :=
      if qtMultiplier ≠ 1 then
        generateTWave sinpi adjustedPhase
          { effectiveModifiers with
            tWaveWidth := some (jsOr effectiveModifiers.tWaveWidth 1 * qtMultiplier) }
      else generateTWave sinpi adjustedPhase effectiveModifiers
    let baseSum := pVal
      + generatePRSegment sinpi adjustedPhase effectiveModifiers currentBeatNumber
      + generateQRSComplex adjustedPhase effectiveModifiers currentBeatNumber
      + generateSTSegment adjustedPhase effectiveModifiers
      + tVal
    let withFlutter :=
      if pathology = PathologyType.atrialFlutter ∧ adjustedPhase < 0.20 then
        flutterWaveValue adjustedPhase
          + generatePRSegment sinpi adjustedPhase effectiveModifiers currentBeatNumber
          + generateQRSComplex adjustedPhase effectiveModifiers currentBeatNumber
          + generateSTSegment adjustedPhase effectiveModifiers
          + generateTWave sinpi adjustedPhase effectiveModifiers
      else baseSum
    let withVfib :=
      if pathology = PathologyType.ventricularFibrillation then
        (phasePseudoRandom adjustedPhase - 0.5) * 1.2
      else withFlutter
    (withVfib + noiseContribution normalizedPhase (noise + jsOr effectiveModifiers.baselineNoise 0))
      * amplitude

/-- The effective modifier record that `generateECGComplex` computes for a
config and beat ordinal (resolution, intermittency decision, override chain). -/
def effectiveModifiersOf (config : ECGConfig) (currentBeatNumber : ℤ) : PathologyModifiers :=
  effectiveModifiersFor config.pathology (computePathologyModifiers config.pathology)
    (shouldShowAbnormality currentBeatNumber (computePathologyModifiers config.pathology))
    currentBeatNumber

/-- The signal part of `generateECGComplex`: the same computation with the
additive baseline-noise term removed and the final amplitude scaling not yet
applied.  Stated by claim C8, `generateECGComplex` equals
`(signal + noise) * amplitude`. -/
def ecgSignalOnly (sinpi : ℚ → ℚ) (phase : ℚ) (config : ECGConfig)
    (beatNumber : Option ℤ) : ℚ :=
  let pathology := config.pathology
  let heartRate := config.heartRate.getD 72
  let normalizedPhase := jsModQ phase 1
  let modifiers := computePathologyModifiers pathology
  let currentBeatNumber := beatNumber.getD ⌊phase⌋
  let showAbnormality := shouldShowAbnormality currentBeatNumber modifiers
  let effectiveModifiers :=
    effectiveModifiersFor pathology modifiers showAbnormality currentBeatNumber
  if isDroppedBeat effectiveModifiers currentBeatNumber then
    generatePWave sinpi normalizedPhase effectiveModifiers
      + generatePRSegment sinpi normalizedPhase effectiveModifiers currentBeatNumber
  else if effectiveModifiers.avDissociation.getD false = true then
    let atrialPhase := jsModQ (phase * heartRate / 60) 1
    let ventricularRate := jsOr effectiveModifiers.ventricularRate (heartRate * 0.4)
    let ventricularPhase := jsModQ (phase * ventricularRate / 60) 1
    generatePWave sinpi atrialPhase effectiveModifiers
      + generatePRSegment sinpi ventricularPhase effectiveModifiers currentBeatNumber
      + generateQRSComplex ventricularPhase effectiveModifiers currentBeatNumber
      + generateSTSegment ventricularPhase effectiveModifiers
      + generateTWave sinpi ventricularPhase effectiveModifiers
  else
    let adjustedPhase :=
      if pathology = PathologyType.atrialPrematureBeat ∧ showAbnormality = true then
        normalizedPhase * 0.7
      else if pathology = PathologyType.ventricularPrematureBeat ∧ showAbnormality = true then
        normalizedPhase * 0.6
      else normalizedPhase
    let pVal :=
      if pathology = PathologyType.ventricularPrematureBeat ∧ showAbnormality = true then 0
      else generatePWave sinpi adjustedPhase effectiveModifiers
    let qtMultiplier := jsOr effectiveModifiers.qtInterval 1
    let tVal :=
      if qtMultiplier ≠ 1 then
        generateTWave sinpi adjustedPhase
          { effectiveModifiers with
            tWaveWidth := some (jsOr effectiveModifiers.tWaveWidth 1 * qtMultiplier) }
      else generateTWave sinpi adjustedPhase effectiveModifiers
    let baseSum := pVal
      + generatePRSegment sinpi adjustedPhase effectiveModifiers currentBeatNumber
      + generateQRSComplex adjustedPhase effectiveModifiers currentBeatNumber
      + generateSTSegment adjustedPhase effectiveModifiers
      + tVal
    let withFlutter :=
      if pathology = PathologyType.atrialFlutter ∧ adjustedPhase < 0.20 then
        flutterWaveValue adjustedPhase
          + generatePRSegment sinpi adjustedPhase effectiveModifiers currentBeatNumber
          + generateQRSComplex adjustedPhase effectiveModifiers currentBeatNumber
          + generateSTSegment adjustedPhase effectiveModifiers
          + generateTWave sinpi adjustedPhase effectiveModifiers
      else baseSum
    if pathology = PathologyType.ventricularFibrillation then
      (phasePseudoRandom adjustedPhase - 0.5) * 1.2
    else withFlutter

/-- Reference definition of the intermittency decision transcribed from the
claim: the cycle length is `abnormalityCycleLength`, defaulting to `4` only
when the field is absent. -/
def specShouldShowAbnormality (beatIndex : ℤ) (modifiers : PathologyModifiers) : Bool :=
  match modifiers.abnormalityFrequency with
  | none => true
  | some frequency =>
    if 1 ≤ frequency then true
    else if frequency ≤ 0 then false
    else
      let pattern := modifiers.abnormalityPattern.getD .random
      let cycleLength := modifiers.abnormalityCycleLength.getD 4
      match pattern with
      | .periodic =>
          decide (jsModQ (beatIndex : ℚ) cycleLength = cycleLength - 1)
      | .clustered =>
          let clusterSize : ℤ := ⌈cycleLength / 2⌉
          let clusterStart : ℚ := (⌊(beatIndex : ℚ) / cycleLength⌋ : ℚ) * cycleLength
          decide ((beatIndex : ℚ) - clusterStart < (clusterSize : ℚ))
      | .random =>
          decide ((jsRemInt (beatIndex * 9301 + 49297) 233280 : ℚ) / 233280 < frequency)

/-- Reference definition of the intermittency decision, amended at one point:
like the claim it takes the cycle length from `abnormalityCycleLength` with
default `4`, but — as the code's JavaScript `||` does — it also falls back to
`4` when the field holds the value `0`. -/
def specShouldShowAbnormalityAmended (beatIndex : ℤ) (modifiers : PathologyModifiers) : Bool :=
  match modifiers.abnormalityFrequency with
  | none => true
  | some frequency =>
    if 1 ≤ frequency then true
    else if frequency ≤ 0 then false
    else
      let pattern := modifiers.abnormalityPattern.getD .random
      let cycleLength := jsOr modifiers.abnormalityCycleLength 4
      match pattern with
      | .periodic =>
          decide (jsModQ (beatIndex : ℚ) cycleLength = cycleLength - 1)
      | .clustered =>
          let clusterSize : ℤ := ⌈cycleLength / 2⌉
          let clusterStart : ℚ := (⌊(beatIndex : ℚ) / cycleLength⌋ : ℚ) * cycleLength
          decide ((beatIndex : ℚ) - clusterStart < (clusterSize : ℚ))
      | .random =>
          decide ((jsRemInt (beatIndex * 9301 + 49297) 233280 : ℚ) / 233280 < frequency)

/-- The per-beat QRS amplitude jitter factor as written in the claim:
`1 + ((beatIndex * 9301 + 49297) mod 200 - 100) / 100 * 0.03`. -/
def specAmplitudeJitter (beatIndex : ℤ) : ℚ :=
  1 + ((jsRemInt (beatIndex * 9301 + 49297) 200 : ℚ) - 100) / 100 * 0.03

/-- The morphology's piecewise QRS value as described by the spec, as a
function of the position `qrsPhase` within the QRS window, before the
`qrsAmplitude` scaling and the per-beat jitter are applied. -/
def qrsShapeValue (qrsPhase : ℚ) (morphology : QrsMorphology) : ℚ :=
  match morphology with
  | .lbbb =>
      if qrsPhase < 0.15 then -0.05 * (qrsPhase / 0.15)
      else if qrsPhase < 0.40 then (qrsPhase - 0.15) / 0.25 * 1
      else if qrsPhase < 0.55 then 1 - (qrsPhase - 0.40) / 0.15 * 1.2
      else if qrsPhase < 0.80 then -0.2 + (qrsPhase - 0.55) / 0.25 * 0.8
      else -0.2 * (1 - (qrsPhase - 0.80) / 0.20)
  | .rbbb =>
      if qrsPhase < 0.20 then qrsPhase / 0.20 * 0.8
      else if qrsPhase < 0.45 then 0.8 - (qrsPhase - 0.20) / 0.25 * 1
      else if qrsPhase < 0.70 then -0.2 + (qrsPhase - 0.45) / 0.25 * 0.6
      else 0.4 * (1 - (qrsPhase - 0.70) / 0.30)
  | .pathologicalQ =>
      if qrsPhase < 0.25 then -0.25 * (qrsPhase / 0.25)
      else if qrsPhase < 0.50 then -0.25 + (qrsPhase - 0.25) / 0.25 * 1.1
      else if qrsPhase < 0.75 then 0.85 - (qrsPhase - 0.50) / 0.25 * 0.95
      else -0.10 * (1 - (qrsPhase - 0.75) / 0.25)
  | .normal =>
      if qrsPhase < 0.12 then -0.10 * (qrsPhase / 0.12)
      else if qrsPhase < 0.50 then
        let rPhase := (qrsPhase - 0.12) / 0.38
        if rPhase < 0.5 then -0.10 + 1.10 * (rPhase * 2)
        else 1 - 1 * ((rPhase - 0.5) * 2)
      else if qrsPhase < 0.75 then 0 - (0 - (-0.10)) * ((qrsPhase - 0.50) / 0.25)
      else -0.10 * (1 - (qrsPhase - 0.75) / 0.25)

theorem effectiveModifiersFor_baselineNoise (p : PathologyType) (m : PathologyModifiers)
    (sa : Bool) (cb : ℤ) :
    (effectiveModifiersFor p m sa cb).baselineNoise = m.baselineNoise := by
  unfold effectiveModifiersFor
  split_ifs <;> rfl

theorem jsRemInt_bounds {a : ℤ} (n : ℤ) (ha : 0 ≤ a) (hn : 0 < n) :
    0 ≤ jsRemInt a n ∧ jsRemInt a n < n :=
  ⟨Int.tmod_nonneg n ha, Int.tmod_lt_of_pos a hn⟩

/-- C1.  For every fixed triple `(phase, config, beatIndex)` the synthesis
entry point `generateECGComplex` of `src/core/types.ts` returns bit-identical
results on repeated calls: its value does not depend on the environment's
`Math.random` stream (the function never invokes it), so it is deterministic
with no dependence on any source of true randomness. -/
theorem generateECGComplex_deterministic (sinpi : ℚ → ℚ) (rndA rndB : ℕ → ℚ)
    (phase : ℚ) (config : ECGConfig) (b : Option ℤ) :
    generateECGComplex sinpi rndA phase config b
      = generateECGComplex sinpi rndB phase config b := rfl

/-- C2 (counterexample).  The intermittency decision does not equal the
claim's reference definition on every modifiers record: for a record whose
`abnormalityCycleLength` is present but `0` (pattern periodic, frequency
`0.5`) and beat `3`, the code falls back to cycle length `4` (JavaScript `||`)
and answers `true`, while the reference keeps cycle length `0` and answers
`false`. -/
theorem shouldShowAbnormality_spec_counterexample :
    shouldShowAbnormality 3
      { abnormalityFrequency := some 0.5, abnormalityPattern := some AbnormalityPattern.periodic,
        abnormalityCycleLength := some 0 } = true
    ∧ specShouldShowAbnormality 3
      { abnormalityFrequency := some 0.5, abnormalityPattern := some AbnormalityPattern.periodic,
        abnormalityCycleLength := some 0 } = false := by
  constructor
  · simp only [shouldShowAbnormality, jsOr, jsModQ, jsTrunc]
    norm_num
  · simp only [specShouldShowAbnormality, jsModQ, jsTrunc]
    norm_num

/-- C2 (amended).  `shouldShowAbnormality` equals the claim's reference
definition once the cycle length is read as `abnormalityCycleLength` when
present and nonzero, and `4` otherwise (the code's JavaScript `||` also sends
an explicit `0` to the default `4`); all other clauses of the claim —
frequency gates, periodic, clustered and random patterns — are as stated. -/
theorem shouldShowAbnormality_matchesSpecAmended (b : ℤ) (m : PathologyModifiers) :
    shouldShowAbnormality b m = specShouldShowAbnormalityAmended b m := rfl

/-- C9.  Calling `generateECGComplex` with the `beatNumber` argument omitted
returns the same value as passing `beatIndex = floor phase`; in particular for
every phase in `[0, 1)` — as supplied by the rendering layer, which never
passes a beat index — the omitted-argument call behaves exactly as beat
index `0`. -/
theorem generateECGComplex_omittedBeat (sinpi : ℚ → ℚ) (rnd : ℕ → ℚ) (phase : ℚ)
    (config : ECGConfig) :
    generateECGComplex sinpi rnd phase config none
      = generateECGComplex sinpi rnd phase config (some ⌊phase⌋)
    ∧ (0 ≤ phase → phase < 1 →
        generateECGComplex sinpi rnd phase config none
          = generateECGComplex sinpi rnd phase config (some 0)) := by
  refine ⟨rfl, fun h0 h1 => ?_⟩
  have hf : ⌊phase⌋ = 0 := Int.floor_eq_zero_iff.mpr (Set.mem_Ico.mpr ⟨h0, h1⟩)
  calc generateECGComplex sinpi rnd phase config none
      = generateECGComplex sinpi rnd phase config (some ⌊phase⌋) := rfl
    _ = generateECGComplex sinpi rnd phase config (some 0) := by rw [hf]

theorem generateECGComplex_omittedBeat_witness :
    generateECGComplex (fun _ => 0) (fun _ => 0) 0.5 { pathology := PathologyType.normal } none
      = generateECGComplex (fun _ => 0) (fun _ => 0) 0.5 { pathology := PathologyType.normal }
          (some 0) :=
  (generateECGComplex_omittedBeat (fun _ => 0) (fun _ => 0) 0.5
    { pathology := PathologyType.normal }).2 (by norm_num) (by norm_num)

/-- C10.  With `qrsWidth = 0` — as the resolver produces for
ventricular-fibrillation — the QRS window `[0.20, 0.20)` is empty, so
`generateQRSComplex` returns `0` for every phase and beat index and the branch
that divides by the zero QRS duration is never entered. -/
theorem generateQRSComplex_zeroWidth :
    (computePathologyModifiers PathologyType.ventricularFibrillation).qrsWidth = some 0
    ∧ ∀ (phase : ℚ) (m : PathologyModifiers) (b : ℤ),
        m.qrsWidth = some 0 → generateQRSComplex phase m b = 0 := by
  refine ⟨rfl, fun phase m b h => ?_⟩
  have hneg : ¬((0.20 : ℚ) ≤ phase ∧ phase < 0.20 + 0.08 * 0) := by
    rintro ⟨h1, h2⟩
    norm_num at h2
    linarith
  simp only [generateQRSComplex, h, Option.getD_some]
  rw [if_neg hneg]

theorem generateQRSComplex_zeroWidth_witness :
    generateQRSComplex 0.25 (computePathologyModifiers PathologyType.ventricularFibrillation) 0
      = 0 :=
  generateQRSComplex_zeroWidth.2 0.25 (computePathologyModifiers
    PathologyType.ventricularFibrillation) 0 rfl

/-- C4.  For every phase inside the QRS window, every QRS morphology and every
beat index, `generateQRSComplex` returns the morphology's piecewise value
multiplied by the per-beat amplitude jitter factor
`1 + ((beatIndex * 9301 + 49297) mod 200 - 100) / 100 * 0.03`, and for the
beat ordinals (nonnegative indices) the jitter stays within three percent of
unity. -/
theorem generateQRSComplex_jitterFactor (phase : ℚ) (m : PathologyModifiers) (b : ℤ)
    (h1 : 0.20 ≤ phase) (h2 : phase < 0.20 + 0.08 * m.qrsWidth.getD 1) :
    generateQRSComplex phase m b
      = qrsShapeValue ((phase - 0.20) / (0.08 * m.qrsWidth.getD 1))
          (m.qrsMorphology.getD QrsMorphology.normal)
        * m.qrsAmplitude.getD 1 * specAmplitudeJitter b
    ∧ (0 ≤ b → |specAmplitudeJitter b - 1| ≤ 0.03) := by
  constructor
  · simp only [generateQRSComplex, specAmplitudeJitter]
    rw [if_pos ⟨h1, h2⟩]
    cases hmo : m.qrsMorphology.getD QrsMorphology.normal <;>
      simp only [qrsShapeValue] <;> split_ifs <;> ring
  · intro hb
    have hmul : (0:ℤ) ≤ b * 9301 := mul_nonneg hb (by norm_num)
    have hseed : (0:ℤ) ≤ b * 9301 + 49297 := by linarith
    obtain ⟨hr0, hr1⟩ := jsRemInt_bounds 200 hseed (by norm_num)
    have hq0 : (0:ℚ) ≤ (jsRemInt (b * 9301 + 49297) 200 : ℚ) := by exact_mod_cast hr0
    have hq1 : ((jsRemInt (b * 9301 + 49297) 200 : ℚ)) ≤ 199 := by
      have h199 : jsRemInt (b * 9301 + 49297) 200 ≤ 199 := by omega
      exact_mod_cast h199
    have hj : specAmplitudeJitter b - 1
        = ((jsRemInt (b * 9301 + 49297) 200 : ℚ) - 100) / 100 * 0.03 := by
      simp only [specAmplitudeJitter]; ring
    rw [hj, abs_le]
    constructor
    · linarith
    · linarith

theorem generateQRSComplex_jitterFactor_witness :
    generateQRSComplex 0.22 {} 5
      = qrsShapeValue ((0.22 - 0.20) / (0.08 * ({} : PathologyModifiers).qrsWidth.getD 1))
          (({} : PathologyModifiers).qrsMorphology.getD QrsMorphology.normal)
        * ({} : PathologyModifiers).qrsAmplitude.getD 1 * specAmplitudeJitter 5
    ∧ ((0:ℤ) ≤ 5 → |specAmplitudeJitter 5 - 1| ≤ 0.03) :=
  generateQRSComplex_jitterFactor 0.22 {} 5 (by norm_num) (by norm_num [Option.getD])

/-- C5.  The modifier resolver is a total, never-failing function: from any
sound cache state, two successive calls with the same identifier return the
same value, that value equals the fresh uncached resolution, soundness is
preserved, and the normal entry (the target of the `default` branch) is the
empty record with every field absent. -/
theorem getPathologyModifiers_memoized (cache : ModifiersCache) (p : PathologyType)
    (hs : soundCache cache) :
    (getPathologyModifiers p cache).1 = computePathologyModifiers p
    ∧ (getPathologyModifiers p (getPathologyModifiers p cache).2).1
        = (getPathologyModifiers p cache).1
    ∧ soundCache (getPathologyModifiers p cache).2
    ∧ computePathologyModifiers PathologyType.normal = {} := by
  rcases hc : cache p with _ | m
  · refine ⟨?_, ?_, ?_, rfl⟩
    · simp [getPathologyModifiers, hc]
    · simp [getPathologyModifiers, hc, cacheInsert]
    · intro q mq hq
      simp only [getPathologyModifiers, hc, cacheInsert] at hq
      by_cases hqp : q = p
      · subst hqp
        simp only [if_pos rfl] at hq
        exact (Option.some.injEq _ _ ▸ hq).symm
      · exact hs q mq (by simpa [hqp] using hq)
  · have hm : m = computePathologyModifiers p := hs p m hc
    refine ⟨?_, ?_, ?_, rfl⟩
    · simp [getPathologyModifiers, hc, hm]
    · simp [getPathologyModifiers, hc]
    · intro q mq hq
      simp only [getPathologyModifiers, hc] at hq
      exact hs q mq hq

theorem getPathologyModifiers_memoized_witness :
    (getPathologyModifiers PathologyType.normal (fun _ => none)).1
        = computePathologyModifiers PathologyType.normal
    ∧ (getPathologyModifiers PathologyType.normal
          (getPathologyModifiers PathologyType.normal (fun _ => none)).2).1
        = (getPathologyModifiers PathologyType.normal (fun _ => none)).1
    ∧ soundCache (getPathologyModifiers PathologyType.normal (fun _ => none)).2
    ∧ computePathologyModifiers PathologyType.normal = {} :=
  getPathologyModifiers_memoized (fun _ => none) PathologyType.normal
    (fun _ _ h => Option.noConfusion h)

/-- C6.  For the ST-change pathologies (`st-elevation-mi`,
`st-depression-ischemia`), on every beat where the intermittency decision is
false the effective ST elevation used for synthesis is the resolved
`stSegmentElevation` multiplied by `0.3 + jitter` with
`jitter = ((beatIndex * 7301 + 29347) mod 233280 / 233280 - 0.5) * 0.2`, and
for beat ordinals (nonnegative indices) the jitter lies within ten percent. -/
theorem effectiveModifiers_stRetention (p : PathologyType)
    (hp : p = PathologyType.stElevationMi ∨ p = PathologyType.stDepressionIschemia)
    (b : ℤ)
    (hshow : shouldShowAbnormality b (computePathologyModifiers p) = false) :
    (effectiveModifiersFor p (computePathologyModifiers p)
        (shouldShowAbnormality b (computePathologyModifiers p)) b).stSegmentElevation
      = some ((computePathologyModifiers p).stSegmentElevation.getD 0
          * (0.3 + stVariationLarge b))
    ∧ (0 ≤ b → |stVariationLarge b| ≤ 0.1) := by
  constructor
  · rw [hshow]
    rcases hp with rfl | rfl <;>
      · simp only [effectiveModifiersFor, computePathologyModifiers, jsOr]
        norm_num
        rw [if_neg (by decide), if_neg (by decide), if_neg (by decide)]
  · intro hb
    have hmul : (0:ℤ) ≤ b * 7301 := mul_nonneg hb (by norm_num)
    have hseed : (0:ℤ) ≤ b * 7301 + 29347 := by linarith
    obtain ⟨hr0, hr1⟩ := jsRemInt_bounds 233280 hseed (by norm_num)
    have hq0 : (0:ℚ) ≤ (jsRemInt (b * 7301 + 29347) 233280 : ℚ) := by exact_mod_cast hr0
    have hq1 : ((jsRemInt (b * 7301 + 29347) 233280 : ℚ)) ≤ 233280 := by
      have hle : jsRemInt (b * 7301 + 29347) 233280 ≤ 233280 := by omega
      exact_mod_cast hle
    have hv : stVariationLarge b
        = ((jsRemInt (b * 7301 + 29347) 233280 : ℚ) / 233280 - 0.5) * 0.2 := rfl
    rw [hv, abs_le]
    constructor
    · linarith
    · linarith

theorem effectiveModifiers_stRetention_witness :
    (effectiveModifiersFor PathologyType.stElevationMi
        (computePathologyModifiers PathologyType.stElevationMi)
        (shouldShowAbnormality 17 (computePathologyModifiers PathologyType.stElevationMi))
        17).stSegmentElevation
      = some ((computePathologyModifiers PathologyType.stElevationMi).stSegmentElevation.getD 0
          * (0.3 + stVariationLarge 17))
    ∧ ((0:ℤ) ≤ 17 → |stVariationLarge 17| ≤ 0.1) :=
  effectiveModifiers_stRetention PathologyType.stElevationMi (Or.inl rfl) 17
    (by simp only [shouldShowAbnormality, computePathologyModifiers, jsRemInt, Option.getD]
        norm_num [Int.tmod])

/-- C3.  When the effective modifiers carry `droppedBeats > 0` and the beat
ordinal hits the last position of the `round (1 / droppedBeats)`-beat cycle
(cycle length greater than `1`), `generateECGComplex` short-circuits: it
returns only the P-wave and PR-segment contributions plus the noise term,
scaled by the amplitude — no QRS, ST or T-wave contribution at any phase. -/
theorem generateECGComplex_droppedBeat (sinpi : ℚ → ℚ) (rnd : ℕ → ℚ) (phase : ℚ)
    (config : ECGConfig) (b : ℤ) (d : ℚ)
    (hdb : (effectiveModifiersOf config b).droppedBeats = some d)
    (hd : d > 0)
    (hcl : jsRound (1 / d) > 1)
    (hbeat : jsRemInt b (jsRound (1 / d)) = jsRound (1 / d) - 1) :
    generateECGComplex sinpi rnd phase config (some b)
      = (generatePWave sinpi (jsModQ phase 1) (effectiveModifiersOf config b)
        + generatePRSegment sinpi (jsModQ phase 1) (effectiveModifiersOf config b) b
        + noiseContribution (jsModQ phase 1)
            (config.noise.getD 0.02 + jsOr (effectiveModifiersOf config b).baselineNoise 0))
        * config.amplitude.getD 1 := by
  have hdrop : isDroppedBeat (effectiveModifiersOf config b) b = true := by
    simp only [isDroppedBeat, hdb]
    rw [if_pos hd]
    exact decide_eq_true ⟨hcl, hbeat⟩
  simp only [effectiveModifiersOf] at hdrop
  simp only [generateECGComplex, Option.getD_some, hdrop, if_true]
  simp only [effectiveModifiersOf]

theorem generateECGComplex_droppedBeat_witness :
    generateECGComplex (fun _ => 0) (fun _ => 0) 0.3
        { pathology := PathologyType.secondDegreeAvBlockType1 } (some 3)
      = (generatePWave (fun _ => 0) (jsModQ 0.3 1)
            (effectiveModifiersOf { pathology := PathologyType.secondDegreeAvBlockType1 } 3)
        + generatePRSegment (fun _ => 0) (jsModQ 0.3 1)
            (effectiveModifiersOf { pathology := PathologyType.secondDegreeAvBlockType1 } 3) 3
        + noiseContribution (jsModQ 0.3 1)
            (({ pathology := PathologyType.secondDegreeAvBlockType1 } : ECGConfig).noise.getD 0.02
              + jsOr (effectiveModifiersOf
                  { pathology := PathologyType.secondDegreeAvBlockType1 } 3).baselineNoise 0))
        * ({ pathology := PathologyType.secondDegreeAvBlockType1 } : ECGConfig).amplitude.getD 1 :=
  generateECGComplex_droppedBeat (fun _ => 0) (fun _ => 0) 0.3
    { pathology := PathologyType.secondDegreeAvBlockType1 } 3 0.25
    rfl (by norm_num) (by norm_num [jsRound]) (by norm_num [jsRound, jsRemInt, Int.tmod])

/-- C7.  For atrial flutter, whenever the adjusted normalized phase is below
`0.20` the pre-QRS portion of the sample is replaced by the 3-cycle
sawtooth/triangle flutter wave (peak-to-peak `0.2`) and the PR, QRS, ST and
T-wave contributions are re-added at that phase; at or above `0.20` the normal
summation is unchanged. -/
theorem generateECGComplex_atrialFlutterWaves (sinpi : ℚ → ℚ) (rnd : ℕ → ℚ) (phase : ℚ)
    (config : ECGConfig) (b : Option ℤ)
    (hp : config.pathology = PathologyType.atrialFlutter) :
    (jsModQ phase 1 < 0.20 →
      generateECGComplex sinpi rnd phase config b
        = (flutterWaveValue (jsModQ phase 1)
          + generatePRSegment sinpi (jsModQ phase 1)
              (computePathologyModifiers PathologyType.atrialFlutter) (b.getD ⌊phase⌋)
          + generateQRSComplex (jsModQ phase 1)
              (computePathologyModifiers PathologyType.atrialFlutter) (b.getD ⌊phase⌋)
          + generateSTSegment (jsModQ phase 1)
              (computePathologyModifiers PathologyType.atrialFlutter)
          + generateTWave sinpi (jsModQ phase 1)
              (computePathologyModifiers PathologyType.atrialFlutter)
          + noiseContribution (jsModQ phase 1)
              (config.noise.getD 0.02
                + jsOr (computePathologyModifiers PathologyType.atrialFlutter).baselineNoise 0))
          * config.amplitude.getD 1)
    ∧ (0.20 ≤ jsModQ phase 1 →
      generateECGComplex sinpi rnd phase config b
        = (generatePWave sinpi (jsModQ phase 1)
              (computePathologyModifiers PathologyType.atrialFlutter)
          + generatePRSegment sinpi (jsModQ phase 1)
              (computePathologyModifiers PathologyType.atrialFlutter) (b.getD ⌊phase⌋)
          + generateQRSComplex (jsModQ phase 1)
              (computePathologyModifiers PathologyType.atrialFlutter) (b.getD ⌊phase⌋)
          + generateSTSegment (jsModQ phase 1)
              (computePathologyModifiers PathologyType.atrialFlutter)
          + generateTWave sinpi (jsModQ phase 1)
              (computePathologyModifiers PathologyType.atrialFlutter)
          + noiseContribution (jsModQ phase 1)
              (config.noise.getD 0.02
                + jsOr (computePathologyModifiers PathologyType.atrialFlutter).baselineNoise 0))
          * config.amplitude.getD 1) := by
  obtain ⟨pt, hr, am, no, sr⟩ := config
  simp only at hp
  subst hp
  constructor <;> intro hph
  · simp [generateECGComplex, computePathologyModifiers, shouldShowAbnormality,
      effectiveModifiersFor, isDroppedBeat, jsOr, hph]
  · simp [generateECGComplex, computePathologyModifiers, shouldShowAbnormality,
      effectiveModifiersFor, isDroppedBeat, jsOr, not_lt.mpr hph]

theorem generateECGComplex_atrialFlutterWaves_witness :
    generateECGComplex (fun q => q) (fun _ => 0) 0.1
        { pathology := PathologyType.atrialFlutter } (some 0)
      = (flutterWaveValue (jsModQ 0.1 1)
        + generatePRSegment (fun q => q) (jsModQ 0.1 1)
            (computePathologyModifiers PathologyType.atrialFlutter) ((some 0).getD ⌊(0.1 : ℚ)⌋)
        + generateQRSComplex (jsModQ 0.1 1)
            (computePathologyModifiers PathologyType.atrialFlutter) ((some 0).getD ⌊(0.1 : ℚ)⌋)
        + generateSTSegment (jsModQ 0.1 1)
            (computePathologyModifiers PathologyType.atrialFlutter)
        + generateTWave (fun q => q) (jsModQ 0.1 1)
            (computePathologyModifiers PathologyType.atrialFlutter)
        + noiseContribution (jsModQ 0.1 1)
            (({ pathology := PathologyType.atrialFlutter } : ECGConfig).noise.getD 0.02
              + jsOr (computePathologyModifiers PathologyType.atrialFlutter).baselineNoise 0))
        * ({ pathology := PathologyType.atrialFlutter } : ECGConfig).amplitude.getD 1 :=
  (generateECGComplex_atrialFlutterWaves (fun q => q) (fun _ => 0) 0.1
    { pathology := PathologyType.atrialFlutter } (some 0) rfl).1
    (by norm_num [jsModQ, jsTrunc])

/-- C8.  The additive baseline-noise term of `generateECGComplex` contributes
exactly `(pseudoRandom (normalizedPhase) - 0.5) * totalNoise` (zero when
`totalNoise = config.noise + modifiers.baselineNoise` is not positive), seeded
from the normalized phase value only and never from the beat index: the value
always decomposes as `(signal + noiseContribution) * amplitude`, with
`noiseContribution` a function of the normalized phase and the total noise
alone, so two calls sharing both have identical noise contributions at any
pair of beat indices, and the noise repeats every cycle at the same phase. -/
theorem generateECGComplex_noiseDecomposition (sinpi : ℚ → ℚ) (rnd : ℕ → ℚ) (phase : ℚ)
    (config : ECGConfig) (b : Option ℤ) :
    generateECGComplex sinpi rnd phase config b
      = (ecgSignalOnly sinpi phase config b
        + noiseContribution (jsModQ phase 1)
            (config.noise.getD 0.02
              + jsOr (computePathologyModifiers config.pathology).baselineNoise 0))
        * config.amplitude.getD 1 := by
  have hbn : ∀ (sa : Bool) (cb : ℤ), jsOr (effectiveModifiersFor config.pathology
      (computePathologyModifiers config.pathology) sa cb).baselineNoise 0
      = jsOr (computePathologyModifiers config.pathology).baselineNoise 0 := by
    intro sa cb
    rw [effectiveModifiersFor_baselineNoise]
  simp only [generateECGComplex, ecgSignalOnly, hbn]
  split_ifs <;> ring
